import Mathlib

/-!
Shallow embedding of the finance-tracking Telegram bot (src/handlers.py and
src/db.py) used to check the natural-language specification against the code.

Modelling conventions:
* Python `float` values are modelled by `PyFloat`: exact rationals plus the
  non-finite values `nan`, `inf`, `ninf`.  Binary rounding of doubles is not
  modelled; every claim checked here depends only on comparisons and on exact
  decimal values.
* Python strings are Lean `String`s; `str.strip`, `str.lower`,
  `str.replace(",", ".")` and `str.split()` are modelled character-wise
  (`lower` covers ASCII and the Cyrillic block actually used by the bot).
* The MySQL layer is modelled as in-memory lists (`Db`).  SQL queries whose
  row order is not fully specified (`ORDER BY type, total DESC` with ties)
  are modelled as relations over all orders the query permits.
* aiogram's FSM (`state` + data dict) is the `Session` structure; a message
  handler is a pure function from session, database and message text to the
  new session, new database and the list of replies sent.  A raising ledger
  call is modelled by the `storeFails` oracle in `Ctx`; `raised = true` means
  the handler aborted at that point (statements after the raise do not run).
-/

namespace FinanceBot

/-! ### Python string helpers -/

/-- Whitespace recognised by Python `str.strip()` (ASCII part). -/
def isSpaceB (c : Char) : Bool :=
  c = ' ' || c = '\t' || c = '\n' || c = '\r' || c.toNat = 11 || c.toNat = 12

/-- Character-wise map over a string. -/
def strMap (f : Char → Char) (s : String) : String :=
  ⟨s.data.map f⟩

/-- Python `str.lower()` restricted to ASCII letters and the Cyrillic block
(U+0410..U+042F and Ё), which covers every string the bot compares. -/
def lowerCh (c : Char) : Char :=
  if 'A' ≤ c ∧ c ≤ 'Z' then Char.ofNat (c.toNat + 32)
  else if 0x410 ≤ c.toNat ∧ c.toNat ≤ 0x42F then Char.ofNat (c.toNat + 0x20)
  else if c.toNat = 0x401 then Char.ofNat 0x451
  else c

/-- Python `str.lower()` (see `lowerCh`). -/
def pyLower (s : String) : String := strMap lowerCh s

/-- Python `str.strip()`. -/
def pyStrip (s : String) : String :=
  ⟨((s.data.dropWhile isSpaceB).reverse.dropWhile isSpaceB).reverse⟩

/-- `str.replace(",", ".")` — both arguments are single characters, so the
replacement is a character-wise map. -/
def commaToDot (s : String) : String :=
  strMap (fun c => if c = ',' then '.' else c) s

/-- Replacing every dot by a comma: used to state the comma/dot parsing law. -/
def dotToComma (s : String) : String :=
  strMap (fun c => if c = '.' then ',' else c) s

/-- Helper for Python `str.split()`: words separated by whitespace runs. -/
def wordsAux : List Char → List Char → List (List Char)
  | [], acc => if acc.isEmpty then [] else [acc.reverse]
  | c :: cs, acc =>
    if isSpaceB c then
      if acc.isEmpty then wordsAux cs [] else acc.reverse :: wordsAux cs []
    else wordsAux cs (c :: acc)

/-- Python `str.split()` with no argument: split on whitespace runs and drop
empty fields. -/
def pySplit (s : String) : List String :=
  (wordsAux s.data []).map (fun l => ⟨l⟩)

/-- `" ".join(parts)`. -/
def joinSpace (parts : List String) : String :=
  String.intercalate " " parts

/-! ### Python floats -/

/-- A Python float: exact rational (binary rounding not modelled) or one of
the non-finite values. -/
inductive PyFloat where
  | nan : PyFloat
  | inf : PyFloat
  | ninf : PyFloat
  | fin (q : ℚ) : PyFloat
  deriving DecidableEq, Repr

/-- Python `a <= b` on floats (`nan` is incomparable). -/
def pyfLeB : PyFloat → PyFloat → Bool
  | .nan, _ => false
  | _, .nan => false
  | .ninf, _ => true
  | _, .ninf => false
  | .inf, .inf => true
  | .inf, .fin _ => false
  | .fin _, .inf => true
  | .fin a, .fin b => decide (a ≤ b)

/-- Python `a < b` on floats. -/
def pyfLtB : PyFloat → PyFloat → Bool
  | .nan, _ => false
  | _, .nan => false
  | .ninf, .ninf => false
  | .ninf, _ => true
  | _, .ninf => false
  | .inf, _ => false
  | .fin _, .inf => true
  | .fin a, .fin b => decide (a < b)

/-- Exact rational addition, spelled through `mkRat` so that proofs can
evaluate it (it equals `a + b`). -/
def ratAdd (a b : ℚ) : ℚ :=
  mkRat (a.num * b.den + b.num * a.den) (a.den * b.den)

/-- Python float addition (exact on finite values). -/
def pyfAdd : PyFloat → PyFloat → PyFloat
  | .nan, _ => .nan
  | _, .nan => .nan
  | .inf, .ninf => .nan
  | .ninf, .inf => .nan
  | .inf, _ => .inf
  | _, .inf => .inf
  | .ninf, _ => .ninf
  | _, .ninf => .ninf
  | .fin a, .fin b => .fin (ratAdd a b)

/-- Python float negation. -/
def pyfNeg : PyFloat → PyFloat
  | .nan => .nan
  | .inf => .ninf
  | .ninf => .inf
  | .fin a => .fin (-a)

/-- Python float subtraction. -/
def pyfSub (a b : PyFloat) : PyFloat := pyfAdd a (pyfNeg b)

/-- Round-half-to-even of `100 * q` to an integer (Python `round`),
computed on the numerator/denominator directly: with `n = 100·q.num`,
`d = q.den` and `f = ⌊n/d⌋`, the fraction `n/d − f` compares with 1/2 as
`2·(n − f·d)` compares with `d`. -/
def halfEvenAt2 (q : ℚ) : ℤ :=
  let n : ℤ := 100 * q.num
  let d : ℤ := (q.den : ℤ)
  let f : ℤ := Int.fdiv n d
  let r2 : ℤ := 2 * (n - f * d)
  if r2 < d then f
  else if d < r2 then f + 1
  else if f % 2 = 0 then f else f + 1

/-- Python `round(x, 2)` on a float (exact decimal idealisation). -/
def pyRound2 : PyFloat → PyFloat
  | .nan => .nan
  | .inf => .inf
  | .ninf => .ninf
  | .fin q => .fin (mkRat (halfEvenAt2 q) 100)

/-! ### Python `float(str)` -/

def isDigitB (c : Char) : Bool := '0' ≤ c ∧ c ≤ '9'

def natOfDigits (ds : List Char) : ℕ :=
  ds.foldl (fun a c => 10 * a + (c.toNat - 48)) 0

/-- Scale a rational by `10 ^ e` for `e : ℤ`. -/
def scale10 (q : ℚ) (e : ℤ) : ℚ :=
  if 0 ≤ e then q * (10 : ℚ) ^ e.toNat else q / (10 : ℚ) ^ (-e).toNat

/-- Parse an optional exponent part `e[±]digits` (empty input means `10^0`).
Returns `none` when trailing characters remain. -/
def parseExpPart : List Char → Option ℤ
  | [] => some 0
  | 'e' :: r => parseExpSigned r
  | 'E' :: r => parseExpSigned r
  | _ => none
where
  parseExpSigned : List Char → Option ℤ
    | '+' :: r => parseExpDigits r 1
    | '-' :: r => parseExpDigits r (-1)
    | r => parseExpDigits r 1
  parseExpDigits (r : List Char) (sgn : ℤ) : Option ℤ :=
    let ds := r.takeWhile isDigitB
    let rest := r.drop ds.length
    if ds.isEmpty ∨ ¬rest.isEmpty then none else some (sgn * natOfDigits ds)

/-- Parse an unsigned decimal literal `digits[.digits][exp]` to an exact
rational (numeric-literal underscores are not modelled). -/
def parseUnsignedQ (cs : List Char) : Option ℚ :=
  let ip := cs.takeWhile isDigitB
  let r1 := cs.drop ip.length
  match r1 with
  | '.' :: r2 =>
    let fp := r2.takeWhile isDigitB
    let r3 := r2.drop fp.length
    if ip.isEmpty ∧ fp.isEmpty then none
    else
      (parseExpPart r3).map fun e =>
        scale10 ((natOfDigits ip : ℚ) + (natOfDigits fp : ℚ) / (10 : ℚ) ^ fp.length) e
  | _ =>
    if ip.isEmpty then none
    else (parseExpPart r1).map fun e => scale10 (natOfDigits ip : ℚ) e

/-- Python `float(s)` on a string: strip, optional sign, then either one of
the special names or a decimal literal. -/
def pyFloatOfStr (s : String) : Except Unit PyFloat :=
  let t := pyStrip s
  let (neg, u) : Bool × List Char :=
    match t.data with
    | '+' :: r => (false, r)
    | '-' :: r => (true, r)
    | r => (false, r)
  let low : String := ⟨u.map lowerCh⟩
  if low = "inf" ∨ low = "infinity" then .ok (if neg then .ninf else .inf)
  else if low = "nan" then .ok .nan
  else
    match parseUnsignedQ u with
    | some q => .ok (.fin (if neg then -q else q))
    | none => .error ()

/-! ### Category catalog (src/handlers.py lines 55-79) -/

def EXPENSE_CATEGORIES : List String :=
  ["Еда", "Транспорт", "Жильё", "Коммунальные", "Связь", "Здоровье",
   "Одежда", "Развлечения", "Подарки", "Прочее"]

def INCOME_CATEGORIES : List String :=
  ["Зарплата", "Фриланс", "Подарки", "Продажи", "Проценты", "Кэшбэк",
   "Инвестиции", "Премия", "Соцвыплаты", "Прочее"]

/-! ### UTC datetimes (src/db.py `_period_start`)

A Python `datetime` is modelled by its UTC wall-clock fields; for arithmetic
and weekday computation it is abstracted to an `Instant`, the Gregorian day
ordinal (days since 1970-01-01, the standard civil-from-days count) plus the
time of day.  `timedelta(days=k)` subtraction and `datetime.weekday()` both
act through the ordinal, exactly as CPython computes them. -/

structure UtcTime where
  year : ℤ
  month : ℤ
  day : ℤ
  hour : ℤ
  minute : ℤ
  second : ℤ
  deriving DecidableEq, Repr

/-- Days since 1970-01-01 of a Gregorian date (civil-from-days count). -/
def civilToDays (y m d : ℤ) : ℤ :=
  let y' := if m ≤ 2 then y - 1 else y
  let era := (if 0 ≤ y' then y' else y' - 399) / 400
  let yoe := y' - era * 400
  let mp := (m + 9) % 12
  let doy := (153 * mp + 2) / 5 + d - 1
  let doe := yoe * 365 + yoe / 4 - yoe / 100 + doy
  era * 146097 + doe - 719468

/-- A datetime abstracted to day ordinal + time of day. -/
structure Instant where
  ord : ℤ
  hour : ℤ
  minute : ℤ
  second : ℤ
  deriving DecidableEq, Repr

def UtcTime.toInstant (t : UtcTime) : Instant :=
  ⟨civilToDays t.year t.month t.day, t.hour, t.minute, t.second⟩

/-- Python `datetime.weekday()`: 0 = Monday.  1970-01-01 was a Thursday. -/
def pyWeekday (t : UtcTime) : ℤ :=
  (civilToDays t.year t.month t.day + 3) % 7

/-- Weekday of a day ordinal (0 = Monday). -/
def ordWeekday (o : ℤ) : ℤ := (o + 3) % 7

/-- Chronological order on instants (MySQL `created_at >= start`). -/
def tsSecs (a : Instant) : ℤ :=
  a.ord * 86400 + a.hour * 3600 + a.minute * 60 + a.second

def tsLeB (a b : Instant) : Bool := decide (tsSecs a ≤ tsSecs b)

inductive Period where
  | day | week | month | year
  deriving DecidableEq, Repr

/-- `Database._period_start` (src/db.py lines 215-230): UTC start datetime of
a reporting period.  `replace(hour=0, ...)` keeps the calendar day;
`replace(day=1, ...)` moves to the first of the month; the week branch
subtracts `weekday()` days from midnight of today. -/
def _period_start (p : Period) (now : UtcTime) : Instant :=
  match p with
  | .day => ⟨now.toInstant.ord, 0, 0, 0⟩
  | .week =>
    let startOfDay := now.toInstant.ord
    let deltaDays := pyWeekday now
    ⟨startOfDay - deltaDays, 0, 0, 0⟩
  | .month => ⟨civilToDays now.year now.month 1, 0, 0, 0⟩
  | .year => ⟨civilToDays now.year 1 1, 0, 0, 0⟩

/-! ### JSON values and Python coercions (voice pipeline) -/

/-- A JSON value as produced by `json.loads` (objects/arrays other than the
top-level dict never reach the validated fields, so they are omitted). -/
inductive JsonValue where
  | null : JsonValue
  | b (x : Bool) : JsonValue
  | num (q : ℚ) : JsonValue
  | str (s : String) : JsonValue
  deriving DecidableEq, Repr

/-- Python truthiness of a JSON value. -/
def pyTruthy : JsonValue → Bool
  | .null => false
  | .b x => x
  | .num q => decide (q ≠ 0)
  | .str s => decide (s ≠ "")

/-- Rendering of a rational for `str(number)`; a plain decimal approximation
of CPython's repr, only ever applied to values no claim depends on. -/
def ratRepr (q : ℚ) : String :=
  if q.den = 1 then toString q.num else toString q.num ++ "/" ++ toString q.den

/-- Python `str(v)` on a JSON value. -/
def pyStrJ : JsonValue → String
  | .null => "None"
  | .b true => "True"
  | .b false => "False"
  | .num q => ratRepr q
  | .str s => s

/-- Python `str(v or "")`: falsy values collapse to the empty string. -/
def pyStrOr (v : JsonValue) : String :=
  if pyTruthy v then pyStrJ v else ""

/-- Python `float(v)` on a JSON value (`float(None)` raises). -/
def pyFloatOfJson : JsonValue → Except Unit PyFloat
  | .null => .error ()
  | .b true => .ok (.fin 1)
  | .b false => .ok (.fin 0)
  | .num q => .ok (.fin q)
  | .str s => pyFloatOfStr s

/-- The top-level dict produced by `_parse_finance_json`; a missing key is
represented by `null` (`data.get` returns `None` for both). -/
structure VoiceData where
  type : JsonValue
  amount : JsonValue
  category : JsonValue
  description : JsonValue
  deriving DecidableEq, Repr

def incomeSyn : List String :=
  ["доход", "income", "прибыль", "зачисление", "зарплата", "поступление"]

def expenseSyn : List String :=
  ["расход", "expense", "трата", "покупка", "списание", "оплата"]

/-- Kind resolution of `_validate_voice_json` (src/handlers.py lines
392-411): literal kind, then synonym tables, then inference from the
category (income catalog checked first). -/
def resolveKind (d : VoiceData) : Option String :=
  let raw := pyLower (pyStrip (pyStrOr d.type))
  let t1 : Option String :=
    if raw = "expense" ∨ raw = "income" then some raw
    else if incomeSyn.contains raw then some "income"
    else if expenseSyn.contains raw then some "expense"
    else none
  match t1 with
  | some k => some k
  | none =>
    let peek := pyStrip (pyStrOr d.category)
    if peek ≠ "" then
      if INCOME_CATEGORIES.contains peek then some "income"
      else if EXPENSE_CATEGORIES.contains peek then some "expense"
      else none
    else none

/-- Catalog for a resolved kind, as selected inside the validator. -/
def catsFor (k : String) : List String :=
  if k = "expense" then EXPENSE_CATEGORIES else INCOME_CATEGORIES

/-- Description normalisation at the end of the validator: a non-null,
non-string description is coerced with `str`. -/
def coerceDesc : JsonValue → JsonValue
  | .null => .null
  | .str s => .str s
  | v => .str (pyStrJ v)

/-- `_validate_voice_json` (src/handlers.py lines 387-429).  The source
mutates the dict and returns an error string or `None`; here the updated
dict is returned in the `ok` case.  Error strings are the source messages
with the quotation marks elided. -/
def _validate_voice_json (d : VoiceData) : Except String VoiceData :=
  match resolveKind d with
  | none => .error "Тип операции должен быть expense или income."
  | some k =>
    let d1 : VoiceData := { d with type := .str k }
    match pyFloatOfJson d1.amount with
    | .error _ => .error "Сумма должна быть числом."
    | .ok amount =>
      if pyfLeB amount (.fin 0) then .error "Сумма должна быть положительной."
      else
        let category := pyStrip (pyStrOr d1.category)
        let validCats := catsFor k
        let d2 : VoiceData :=
          if validCats.contains category then d1
          else { d1 with category := .str "Прочее" }
        .ok { d2 with description := coerceDesc d2.description }

/-! ### Ledger store (src/db.py)

The MySQL tables are in-memory lists; `AUTO_INCREMENT` ids are positions
(users are never deleted, so this is exact for them; transaction ids appear
in no claim). -/

structure Txn where
  userId : ℕ
  txType : String
  amount : PyFloat
  category : String
  description : Option String
  createdAt : Instant
  deriving DecidableEq, Repr

structure Db where
  users : List (ℤ × String)
  txs : List Txn
  deriving DecidableEq, Repr

/-- Index (1-based internal id) of a user by telegram id. -/
def findUser : List (ℤ × String) → ℤ → ℕ → Option ℕ
  | [], _, _ => none
  | u :: us, tid, i => if u.1 = tid then some (i + 1) else findUser us tid (i + 1)

/-- `Database.ensure_user` (src/db.py lines 125-144). -/
def ensure_user (db : Db) (telegramId : ℤ) (name : String) : ℕ × Db :=
  match findUser db.users telegramId 0 with
  | some i => (i, db)
  | none =>
    (db.users.length + 1, { db with users := db.users ++ [(telegramId, name)] })

/-- `Database.add_transaction` (src/db.py lines 146-187): the two guards of
the source, then the INSERT.  `storeFails` models the ledger store raising on
the INSERT (network/database failure). -/
def add_transaction (db : Db) (userId : ℕ) (txType : String) (amount : PyFloat)
    (category : String) (description : Option String) (now : Instant)
    (storeFails : Bool) : Except String (ℕ × Db) :=
  if ¬(txType = "expense" ∨ txType = "income") then
    .error "tx_type must be expense or income"
  else if pyfLeB amount (.fin 0) then .error "amount must be positive"
  else if storeFails then .error "store failure"
  else
    .ok (db.txs.length + 1,
      { db with
        txs := db.txs ++ [⟨userId, txType, amount, category, description, now⟩] })

/-- Sum of a list of amounts (SQL `COALESCE(SUM(amount), 0)`). -/
def sumAmounts (l : List PyFloat) : PyFloat := l.foldl pyfAdd (.fin 0)

/-- `Database.get_balance` (src/db.py lines 189-213). -/
def get_balance (db : Db) (userId : ℕ) : PyFloat :=
  let incomeSum :=
    sumAmounts ((db.txs.filter
      (fun t => t.userId = userId ∧ t.txType = "income")).map (·.amount))
  let expenseSum :=
    sumAmounts ((db.txs.filter
      (fun t => t.userId = userId ∧ t.txType = "expense")).map (·.amount))
  pyRound2 (pyfSub incomeSum expenseSum)

/-- `Database.delete_last_transaction` (src/db.py lines 302-326): delete the
transaction maximal by `(created_at, id)`; with positional ids this is the
latest-inserted among those of maximal `created_at`. -/
def delete_last_transaction (db : Db) (userId : ℕ) : Bool × Db :=
  let idx :=
    (List.range db.txs.length).foldl
      (fun best i =>
        match db.txs.get? i with
        | none => best
        | some t =>
          if t.userId = userId then
            match best with
            | none => some i
            | some j =>
              match db.txs.get? j with
              | none => some i
              | some tj => if tsLeB tj.createdAt t.createdAt then some i else best
          else best)
      none
  match idx with
  | none => (false, db)
  | some i => (true, { db with txs := db.txs.eraseIdx i })

/-! ### Stats aggregation (src/db.py `get_stats`, lines 232-300)

The by-category query is `GROUP BY type, category ORDER BY type, total DESC
LIMIT 50`; within one type, rows with equal totals may come back in any
order, so the query result is a relation over row lists rather than a
function. -/

structure StatsRow where
  txType : String
  category : String
  total : PyFloat
  deriving DecidableEq, Repr

/-- WHERE clause of both stats queries. -/
def txMatches (userId : ℕ) (start : Instant) (t : Txn) : Bool :=
  t.userId = userId && tsLeB start t.createdAt

/-- Distinct keys in first-occurrence order. -/
def firstDedup : List (String × String) → List (String × String) → List (String × String)
  | [], _ => []
  | k :: ks, seen =>
    if seen.contains k then firstDedup ks seen
    else k :: firstDedup ks (k :: seen)

/-- The `GROUP BY type, category` result set (order irrelevant: the query
relation below only constrains it up to permutation). -/
def statsGroups (txs : List Txn) (userId : ℕ) (start : Instant) : List StatsRow :=
  let f := txs.filter (txMatches userId start)
  let keys := firstDedup (f.map (fun t => (t.txType, t.category))) []
  keys.map fun k =>
    ⟨k.1, k.2,
      sumAmounts ((f.filter (fun t => t.txType = k.1 ∧ t.category = k.2)).map (·.amount))⟩

/-- MySQL ENUM('expense','income') sort key. -/
def enumIdx (s : String) : ℕ :=
  if s = "expense" then 0 else if s = "income" then 1 else 2

/-- `ORDER BY type, total DESC` as a (non-strict) pairwise constraint. -/
def rowLeB (a b : StatsRow) : Bool :=
  decide (enumIdx a.txType < enumIdx b.txType) ||
    (decide (enumIdx a.txType = enumIdx b.txType) && pyfLeB b.total a.total)

/-- The possible row lists returned by the by-category query: a permutation
of the group rows consistent with `ORDER BY type, total DESC`, truncated by
`LIMIT 50`. -/
def IsStatsRows (txs : List Txn) (userId : ℕ) (start : Instant)
    (rows : List StatsRow) : Prop :=
  ∃ perm : List StatsRow,
    perm.Perm (statsGroups txs userId start) ∧
    perm.Pairwise (fun a b => rowLeB a b = true) ∧
    rows = perm.take 50

/-- The dict returned by `get_stats`, minus the echoed `period`/`from`. -/
structure StatsResult where
  incomeTotal : PyFloat
  expenseTotal : PyFloat
  byIncome : List (String × PyFloat)
  byExpense : List (String × PyFloat)
  deriving DecidableEq, Repr

/-- Total of one kind since `start` (the `GROUP BY type` query). -/
def kindTotal (txs : List Txn) (userId : ℕ) (start : Instant) (kind : String) :
    PyFloat :=
  sumAmounts ((txs.filter
    (fun t => txMatches userId start t && t.txType = kind)).map (·.amount))

/-- `Database.get_stats` as a relation: `res` is a possible result of
`get_stats(user_id, period)` evaluated at UTC instant `now` over ledger
`txs`. -/
def IsGetStats (txs : List Txn) (userId : ℕ) (p : Period) (now : UtcTime)
    (res : StatsResult) : Prop :=
  res.incomeTotal = pyRound2 (kindTotal txs userId (_period_start p now) "income") ∧
  res.expenseTotal = pyRound2 (kindTotal txs userId (_period_start p now) "expense") ∧
  ∃ rows, IsStatsRows txs userId (_period_start p now) rows ∧
    res.byIncome =
      (rows.filter (fun r => r.txType = "income")).map (fun r => (r.category, r.total)) ∧
    res.byExpense =
      (rows.filter (fun r => r.txType = "expense")).map (fun r => (r.category, r.total))

/-! ### Session state machine (src/handlers.py)

aiogram's FSM state plus the data dict.  `state.clear()` resets both;
`state.update_data(...)` merges single keys.  The dict keys actually used are
`amount`, `category` and `voice_tx`. -/

inductive SState where
  | idle
  | expenseAmount | expenseCategory | expenseCustomCategory
  | expenseNeedDescription | expenseDescription
  | incomeAmount | incomeCategory | incomeCustomCategory
  | incomeNeedDescription | incomeDescription
  | voiceConfirm
  deriving DecidableEq, Repr

/-- The `voice_tx` dict stored by `handle_voice` before confirmation. -/
structure VoiceTx where
  txType : String
  amount : PyFloat
  category : String
  description : Option String
  deriving DecidableEq, Repr

structure Session where
  state : SState
  amount : Option PyFloat
  category : Option String
  voiceTx : Option VoiceTx
  deriving DecidableEq, Repr

/-- The session after `state.clear()`. -/
def Session.empty : Session := ⟨.idle, none, none, none⟩

/-- Per-event context: the sender, the DB clock, and whether the ledger
store raises on this event's INSERT. -/
structure Ctx where
  tgId : ℤ
  name : String
  now : Instant
  storeFails : Bool
  deriving DecidableEq, Repr

/-- One `message.answer(...)` call, carrying the data the message displays
(message formatting itself is transport, outside this model). -/
inductive Reply where
  | startMsg | helpMsg
  | askExpenseAmount | askIncomeAmount
  | balanceShown (b : PyFloat)
  | statsPrompt
  | statsShown (period : String)
  | unknownPeriod
  | deletedLast (ok : Bool)
  | cancelledMsg
  | invalidAmount
  | chooseCategory (kind : String)
  | chooseFromKb
  | askCustomCategory
  | emptyCategory
  | askDescChoice
  | askDescription
  | pleaseYesNo
  | notAdding
  | added (txType : String) (amount : PyFloat) (category : String)
  | confirmPrompt (txType : String) (amount : PyFloat) (category : String)
      (description : Option String)
  | voiceError (origText : String) (err : String)
  | cmdError (e : String)
  deriving DecidableEq, Repr

/-- Result of handling one event.  `raised = true` means a ledger call
raised and the handler aborted at that point. -/
structure HOut where
  sess : Session
  db : Db
  replies : List Reply
  raised : Bool
  deriving DecidableEq, Repr

/-- `_parse_add_args` (src/handlers.py lines 137-162). -/
def _parse_add_args (args : Option String) :
    Except String (PyFloat × String × Option String) :=
  let a := args.getD ""
  if a = "" then .error "Неверный формат. Используйте: <сумма> <категория> [описание]"
  else
    let parts := pySplit a
    if parts.length < 2 then
      .error "Неверный формат. Используйте: <сумма> <категория> [описание]"
    else
      let amountStr := commaToDot (parts.getD 0 "")
      match pyFloatOfStr amountStr with
      | .error _ => .error "Сумма должна быть числом"
      | .ok amount =>
        let category := parts.getD 1 ""
        let description :=
          if 2 < parts.length then some (joinSpace (parts.drop 2)) else none
        if pyfLeB amount (.fin 0) then .error "Сумма должна быть положительной"
        else .ok (amount, category, description)

/-- `btn_expense` (lines 206-213): `state.clear()` then
`set_state(ExpenseStates.amount)`. -/
def btn_expense (_s : Session) : Session × List Reply :=
  ({ Session.empty with state := .expenseAmount }, [.askExpenseAmount])

/-- `btn_income` (lines 216-223). -/
def btn_income (_s : Session) : Session × List Reply :=
  ({ Session.empty with state := .incomeAmount }, [.askIncomeAmount])

/-- `expense_enter_amount` (lines 660-679). -/
def expense_enter_amount (s : Session) (text : Option String) :
    Session × List Reply :=
  let t := commaToDot (pyStrip (text.getD ""))
  if pyLower t = "отмена" then (Session.empty, [.cancelledMsg])
  else
    match pyFloatOfStr t with
    | .ok amount =>
      if pyfLeB amount (.fin 0) then (s, [.invalidAmount])
      else ({ s with state := .expenseCategory, amount := some amount },
        [.chooseCategory "expense"])
    | .error _ => (s, [.invalidAmount])

/-- `expense_choose_category` (lines 682-699). -/
def expense_choose_category (s : Session) (text : Option String) :
    Session × List Reply :=
  let category := pyStrip (text.getD "")
  if category = "Отмена" then (Session.empty, [.cancelledMsg])
  else if category = "Пользовательская" then
    ({ s with state := .expenseCustomCategory }, [.askCustomCategory])
  else if ¬(EXPENSE_CATEGORIES.contains category) then (s, [.chooseFromKb])
  else ({ s with state := .expenseNeedDescription, category := some category },
    [.askDescChoice])

/-- `expense_custom_category` (lines 702-710): note there is no cancel check
in this handler. -/
def expense_custom_category (s : Session) (text : Option String) :
    Session × List Reply :=
  let category := pyStrip (text.getD "")
  if category = "" then (s, [.emptyCategory])
  else ({ s with state := .expenseNeedDescription, category := some category },
    [.askDescChoice])

/-- `_finalize_expense` (lines 740-760): `str(data.get("category"))` renders
a missing category as the string `"None"`. -/
def _finalize_expense (db : Db) (data : Session) (description : Option String)
    (ctx : Ctx) : Db × List Reply × Bool :=
  let amount := data.amount.getD (.fin 0)
  let category := match data.category with | some c => c | none => "None"
  let (userId, db1) := ensure_user db ctx.tgId ctx.name
  match add_transaction db1 userId "expense" amount category description
      ctx.now ctx.storeFails with
  | .error _ => (db1, [], true)
  | .ok (_, db2) => (db2, [.added "expense" amount category], false)

/-- `expense_need_description` (lines 713-729): on "нет" the session is
cleared BEFORE `_finalize_expense` runs. -/
def expense_need_description (s : Session) (text : Option String) (db : Db)
    (ctx : Ctx) : HOut :=
  let answer := pyLower (pyStrip (text.getD ""))
  if answer = "отмена" then ⟨Session.empty, db, [.cancelledMsg], false⟩
  else if answer = "да" then
    ⟨{ s with state := .expenseDescription }, db, [.askDescription], false⟩
  else if answer = "нет" then
    let (db', rs, raised) := _finalize_expense db s none ctx
    ⟨Session.empty, db', rs, raised⟩
  else ⟨s, db, [.pleaseYesNo], false⟩

/-- `expense_description` (lines 732-737): any input is the description; the
session is cleared before `_finalize_expense` runs. -/
def expense_description (s : Session) (text : Option String) (db : Db)
    (ctx : Ctx) : HOut :=
  let description := pyStrip (text.getD "")
  let (db', rs, raised) :=
    _finalize_expense db s (if description = "" then none else some description) ctx
  ⟨Session.empty, db', rs, raised⟩

/-- `income_enter_amount` (lines 765-784). -/
def income_enter_amount (s : Session) (text : Option String) :
    Session × List Reply :=
  let t := commaToDot (pyStrip (text.getD ""))
  if pyLower t = "отмена" then (Session.empty, [.cancelledMsg])
  else
    match pyFloatOfStr t with
    | .ok amount =>
      if pyfLeB amount (.fin 0) then (s, [.invalidAmount])
      else ({ s with state := .incomeCategory, amount := some amount },
        [.chooseCategory "income"])
    | .error _ => (s, [.invalidAmount])

/-- `income_choose_category` (lines 787-803). -/
def income_choose_category (s : Session) (text : Option String) :
    Session × List Reply :=
  let category := pyStrip (text.getD "")
  if category = "Отмена" then (Session.empty, [.cancelledMsg])
  else if category = "Пользовательская" then
    ({ s with state := .incomeCustomCategory }, [.askCustomCategory])
  else if ¬(INCOME_CATEGORIES.contains category) then (s, [.chooseFromKb])
  else ({ s with state := .incomeNeedDescription, category := some category },
    [.askDescChoice])

/-- `income_custom_category` (lines 806-814): no cancel check. -/
def income_custom_category (s : Session) (text : Option String) :
    Session × List Reply :=
  let category := pyStrip (text.getD "")
  if category = "" then (s, [.emptyCategory])
  else ({ s with state := .incomeNeedDescription, category := some category },
    [.askDescChoice])

/-- `_finalize_income` (lines 844-864). -/
def _finalize_income (db : Db) (data : Session) (description : Option String)
    (ctx : Ctx) : Db × List Reply × Bool :=
  let amount := data.amount.getD (.fin 0)
  let category := match data.category with | some c => c | none => "None"
  let (userId, db1) := ensure_user db ctx.tgId ctx.name
  match add_transaction db1 userId "income" amount category description
      ctx.now ctx.storeFails with
  | .error _ => (db1, [], true)
  | .ok (_, db2) => (db2, [.added "income" amount category], false)

/-- `income_need_description` (lines 817-833). -/
def income_need_description (s : Session) (text : Option String) (db : Db)
    (ctx : Ctx) : HOut :=
  let answer := pyLower (pyStrip (text.getD ""))
  if answer = "отмена" then ⟨Session.empty, db, [.cancelledMsg], false⟩
  else if answer = "да" then
    ⟨{ s with state := .incomeDescription }, db, [.askDescription], false⟩
  else if answer = "нет" then
    let (db', rs, raised) := _finalize_income db s none ctx
    ⟨Session.empty, db', rs, raised⟩
  else ⟨s, db, [.pleaseYesNo], false⟩

/-- `income_description` (lines 836-841). -/
def income_description (s : Session) (text : Option String) (db : Db)
    (ctx : Ctx) : HOut :=
  let description := pyStrip (text.getD "")
  let (db', rs, raised) :=
    _finalize_income db s (if description = "" then none else some description) ctx
  ⟨Session.empty, db', rs, raised⟩

/-- `data.get("description")` as stored in `voice_tx`; after the validator it
is `None` or a string. -/
def jsonDescToOpt : JsonValue → Option String
  | .null => none
  | v => some (pyStrJ v)

/-- The deterministic tail of `handle_voice` (lines 478-503), entered with
the dict `d` produced by the NLU collaborator and the transcribed text:
validate, then store the candidate and enter confirmation.  No ledger call
happens on this path. -/
def handle_voice_parsed (d : VoiceData) (origText : String) (s : Session)
    (db : Db) : HOut :=
  match _validate_voice_json d with
  | .error err => ⟨s, db, [.voiceError origText err], false⟩
  | .ok d' =>
    let txType := pyStrJ d'.type
    let amount := (pyFloatOfJson d'.amount).toOption.getD (.fin 0)
    let category := pyStrJ d'.category
    let description := jsonDescToOpt d'.description
    let s' := { s with
      state := SState.voiceConfirm
      voiceTx := some ⟨txType, amount, category, description⟩ }
    let shown := match description with
      | some t => if t = "" then none else some t
      | none => none
    ⟨s', db, [.confirmPrompt txType amount category shown], false⟩

/-- `voice_confirm` (lines 506-543). -/
def voice_confirm (s : Session) (text : Option String) (db : Db) (ctx : Ctx) :
    HOut :=
  let answer := pyLower (pyStrip (text.getD ""))
  if answer = "отмена" then ⟨Session.empty, db, [.cancelledMsg], false⟩
  else if ¬(answer = "да" ∨ answer = "нет") then ⟨s, db, [.pleaseYesNo], false⟩
  else if answer = "нет" then ⟨Session.empty, db, [.notAdding], false⟩
  else
    let txType := match s.voiceTx with | some v => v.txType | none => "None"
    let amount := match s.voiceTx with | some v => v.amount | none => .fin 0
    let category := match s.voiceTx with | some v => v.category | none => "Прочее"
    let description := match s.voiceTx with | some v => v.description | none => none
    let (userId, db1) := ensure_user db ctx.tgId ctx.name
    match add_transaction db1 userId txType amount category description
        ctx.now ctx.storeFails with
    | .error _ => ⟨s, db1, [], true⟩
    | .ok (_, db2) => ⟨Session.empty, db2, [.added txType amount category], false⟩

/-- `cmd_start` (lines 165-183). -/
def cmd_start (s : Session) (db : Db) (ctx : Ctx) : HOut :=
  ⟨s, (ensure_user db ctx.tgId ctx.name).2, [.startMsg], false⟩

/-- `cmd_help` (lines 186-201). -/
def cmd_help (s : Session) (db : Db) : HOut := ⟨s, db, [.helpMsg], false⟩

/-- `cmd_add_expense` (lines 546-568). -/
def cmd_add_expense (s : Session) (args : Option String) (db : Db) (ctx : Ctx) :
    HOut :=
  match _parse_add_args args with
  | .error e => ⟨s, db, [.cmdError e], false⟩
  | .ok (amount, category, description) =>
    let (userId, db1) := ensure_user db ctx.tgId ctx.name
    match add_transaction db1 userId "expense" amount category description
        ctx.now ctx.storeFails with
    | .error _ => ⟨s, db1, [], true⟩
    | .ok (_, db2) => ⟨s, db2, [.added "expense" amount category], false⟩

/-- `cmd_add_income` (lines 571-593). -/
def cmd_add_income (s : Session) (args : Option String) (db : Db) (ctx : Ctx) :
    HOut :=
  match _parse_add_args args with
  | .error e => ⟨s, db, [.cmdError e], false⟩
  | .ok (amount, category, description) =>
    let (userId, db1) := ensure_user db ctx.tgId ctx.name
    match add_transaction db1 userId "income" amount category description
        ctx.now ctx.storeFails with
    | .error _ => ⟨s, db1, [], true⟩
    | .ok (_, db2) => ⟨s, db2, [.added "income" amount category], false⟩

/-- `cmd_balance` (lines 596-605). -/
def cmd_balance (s : Session) (db : Db) (ctx : Ctx) : HOut :=
  let (userId, db1) := ensure_user db ctx.tgId ctx.name
  ⟨s, db1, [.balanceShown (get_balance db1 userId)], false⟩

/-- `cmd_stats` (lines 608-641).  The numbers in the reply come from the
relational `IsGetStats`; the reply records the period shown. -/
def cmd_stats (s : Session) (args : Option String) (db : Db) (ctx : Ctx) :
    HOut :=
  let period := pyLower (pyStrip (args.getD ""))
  if ¬(period = "day" ∨ period = "week" ∨ period = "month" ∨ period = "year")
  then ⟨s, db, [.unknownPeriod], false⟩
  else
    let db1 := (ensure_user db ctx.tgId ctx.name).2
    ⟨s, db1, [.statsShown period], false⟩

/-- `cmd_delete_last` (lines 644-655). -/
def cmd_delete_last (s : Session) (db : Db) (ctx : Ctx) : HOut :=
  let (userId, db1) := ensure_user db ctx.tgId ctx.name
  let (ok, db2) := delete_last_transaction db1 userId
  ⟨s, db2, [.deletedLast ok], false⟩

/-- `btn_stats_period` (lines 238-248). -/
def btn_stats_period (s : Session) (db : Db) (ctx : Ctx) (text : String) :
    HOut :=
  let t := pyLower (pyStrip text)
  let period : Option String :=
    if t = "день" then some "day"
    else if t = "неделя" then some "week"
    else if t = "месяц" then some "month"
    else if t = "год" then some "year"
    else none
  match period with
  | none => ⟨s, db, [.unknownPeriod], false⟩
  | some p => cmd_stats s (some p) db ctx

def liftSR (p : Session × List Reply) (db : Db) : HOut := ⟨p.1, db, p.2, false⟩

/-- Dispatch of one text message, following aiogram's first-match-wins
registration order in src/handlers.py: `/start`, `/help`, the reply-keyboard
buttons, `voice_confirm` (its state filter), the remaining commands, then the
dialog-state handlers.  An unmatched message in `Idle` is ignored. -/
def handleText (s : Session) (db : Db) (ctx : Ctx) (text : String) : HOut :=
  let tok := (pySplit text).getD 0 ""
  let args :=
    let ps := pySplit text
    if ps.length ≤ 1 then none else some (joinSpace (ps.drop 1))
  if tok = "/start" then cmd_start s db ctx
  else if tok = "/help" then cmd_help s db
  else if text = "➖ Расход" then liftSR (btn_expense s) db
  else if text = "➕ Доход" then liftSR (btn_income s) db
  else if text = "💰 Баланс" then cmd_balance s db ctx
  else if text = "📊 Статистика" then ⟨s, db, [.statsPrompt], false⟩
  else if text = "День" ∨ text = "Неделя" ∨ text = "Месяц" ∨ text = "Год" then
    btn_stats_period s db ctx text
  else if text = "🗑 Удалить последнюю" then cmd_delete_last s db ctx
  else if text = "❓ Помощь" then cmd_help s db
  else if s.state = .voiceConfirm then voice_confirm s (some text) db ctx
  else if tok = "/add_expense" then cmd_add_expense s args db ctx
  else if tok = "/add_income" then cmd_add_income s args db ctx
  else if tok = "/balance" then cmd_balance s db ctx
  else if tok = "/stats" then cmd_stats s args db ctx
  else if tok = "/delete_last" then cmd_delete_last s db ctx
  else
    match s.state with
    | .idle => ⟨s, db, [], false⟩
    | .expenseAmount => liftSR (expense_enter_amount s (some text)) db
    | .expenseCategory => liftSR (expense_choose_category s (some text)) db
    | .expenseCustomCategory => liftSR (expense_custom_category s (some text)) db
    | .expenseNeedDescription => expense_need_description s (some text) db ctx
    | .expenseDescription => expense_description s (some text) db ctx
    | .incomeAmount => liftSR (income_enter_amount s (some text)) db
    | .incomeCategory => liftSR (income_choose_category s (some text)) db
    | .incomeCustomCategory => liftSR (income_custom_category s (some text)) db
    | .incomeNeedDescription => income_need_description s (some text) db ctx
    | .incomeDescription => income_description s (some text) db ctx
    | .voiceConfirm => voice_confirm s (some text) db ctx

/-! ### Concrete fixtures for witnesses and counterexamples -/

def db0 : Db := ⟨[], []⟩

def inst0 : Instant := ⟨0, 0, 0, 0⟩

def ctxOk : Ctx := ⟨1, "u", inst0, false⟩

def ctxFail : Ctx := ⟨1, "u", inst0, true⟩

def vtSample : VoiceTx := ⟨"expense", .fin 100, "Еда", some "кофе"⟩

def sConfirm : Session := ⟨.voiceConfirm, none, none, some vtSample⟩

def sNeedDesc : Session := ⟨.expenseNeedDescription, some (.fin 5), some "Еда", none⟩

def sDesc : Session := ⟨.expenseDescription, some (.fin 5), some "Еда", none⟩

def sCustom : Session := ⟨.expenseCustomCategory, some (.fin 5), none, none⟩

def dFrac : VoiceData := ⟨.str "expense", .num (mkRat 5999 1000), .str "Еда", .null⟩

def dNullAmount : VoiceData := ⟨.str "expense", .null, .str "Еда", .null⟩

def dNeg5 : VoiceData := ⟨.str "expense", .num (-5), .str "Еда", .null⟩

def dIncomeBadCat : VoiceData := ⟨.str "income", .num 7, .str "Еда", .null⟩

def now0 : UtcTime := ⟨2000, 1, 1, 0, 0, 0⟩

def expTxnAt (c : String) (q : ℚ) : Txn :=
  ⟨1, "expense", .fin q, c, none, ⟨20000, 0, 0, 0⟩⟩

def txs11 : List Txn :=
  [expTxnAt "c01" 11, expTxnAt "c02" 10, expTxnAt "c03" 9, expTxnAt "c04" 8,
   expTxnAt "c05" 7, expTxnAt "c06" 6, expTxnAt "c07" 5, expTxnAt "c08" 4,
   expTxnAt "c09" 3, expTxnAt "c10" 2, expTxnAt "c11" 1]

def rows11 : List StatsRow :=
  [⟨"expense", "c01", .fin 11⟩, ⟨"expense", "c02", .fin 10⟩,
   ⟨"expense", "c03", .fin 9⟩, ⟨"expense", "c04", .fin 8⟩,
   ⟨"expense", "c05", .fin 7⟩, ⟨"expense", "c06", .fin 6⟩,
   ⟨"expense", "c07", .fin 5⟩, ⟨"expense", "c08", .fin 4⟩,
   ⟨"expense", "c09", .fin 3⟩, ⟨"expense", "c10", .fin 2⟩,
   ⟨"expense", "c11", .fin 1⟩]

def res11 : StatsResult :=
  ⟨.fin 0, .fin 66, [],
   [("c01", .fin 11), ("c02", .fin 10), ("c03", .fin 9), ("c04", .fin 8),
    ("c05", .fin 7), ("c06", .fin 6), ("c07", .fin 5), ("c08", .fin 4),
    ("c09", .fin 3), ("c10", .fin 2), ("c11", .fin 1)]⟩

def txs2 : List Txn := [expTxnAt "a" 5, expTxnAt "b" 5]

def rowsBA : List StatsRow := [⟨"expense", "b", .fin 5⟩, ⟨"expense", "a", .fin 5⟩]

def resBA : StatsResult := ⟨.fin 0, .fin 10, [], [("b", .fin 5), ("a", .fin 5)]⟩

def resEmpty : StatsResult := ⟨.fin 0, .fin 0, [], []⟩

/-! ### Helper lemmas -/

/-- `db.users` contains the telegram id `t`. -/
def hasUser (db : Db) (t : ℤ) : Bool :=
  db.users.any (fun u => decide (u.1 = t))

lemma findUser_isSome (l : List (ℤ × String)) (t : ℤ) :
    ∀ i, (findUser l t i).isSome = l.any (fun u => decide (u.1 = t)) := by
  induction l with
  | nil => intro i; rfl
  | cons u us ih =>
    intro i
    by_cases h : u.1 = t
    · simp [findUser, h]
    · simp [findUser, h, ih]

lemma hasUser_ensure_user (db : Db) (t : ℤ) (n : String) :
    hasUser (ensure_user db t n).2 t = true := by
  unfold ensure_user
  cases hf : findUser db.users t 0 with
  | some i =>
    have := findUser_isSome db.users t 0
    rw [hf] at this
    simpa [hasUser] using this.symm
  | none => simp [hasUser]

lemma add_transaction_error_of_storeFails (db : Db) (userId : ℕ) (txType : String)
    (amount : PyFloat) (category : String) (description : Option String)
    (now : Instant) :
    ∃ e, add_transaction db userId txType amount category description now true =
      .error e := by
  unfold add_transaction
  split_ifs with h1 h2
  all_goals first
    | exact ⟨_, rfl⟩
    | (rename_i hf; exact absurd rfl hf)

lemma comma_dot_char (c : Char) :
    (if (if c = '.' then ',' else c) = ',' then '.' else if c = '.' then ',' else c) =
      (if c = ',' then '.' else c) := by
  by_cases h : c = '.'
  · subst h; decide
  · by_cases h2 : c = ','
    · subst h2; decide
    · simp [h, h2]

lemma commaToDot_dotToComma (s : String) :
    commaToDot (dotToComma s) = commaToDot s := by
  simp only [commaToDot, dotToComma, strMap, List.map_map]
  exact congrArg _ (List.map_congr_left fun c _ => comma_dot_char c)

lemma isSpaceB_dotComma (c : Char) :
    isSpaceB (if c = '.' then ',' else c) = isSpaceB c := by
  by_cases h : c = '.'
  · subst h; decide
  · simp [h]

lemma pyStrip_dotToComma (s : String) :
    pyStrip (dotToComma s) = dotToComma (pyStrip s) := by
  have hfun : (fun c => isSpaceB (if c = '.' then ',' else c)) = isSpaceB :=
    funext isSpaceB_dotComma
  have hdw : ∀ l : List Char,
      List.dropWhile isSpaceB (l.map (fun c => if c = '.' then ',' else c)) =
        (List.dropWhile isSpaceB l).map (fun c => if c = '.' then ',' else c) := by
    intro l
    rw [List.dropWhile_map]
    simp only [Function.comp_def, hfun]
  simp only [pyStrip, dotToComma, strMap]
  congr 1
  rw [hdw, ← List.map_reverse, hdw, ← List.map_reverse]

/-! ### Claim theorems -/

/-- C8: replacing the dot decimal separator by a comma never changes the
parsed amount: character-for-character, the `replace(",", ".")`
normalisation maps both spellings to the same string before `float` runs,
in the command-argument parser (`parts[0].replace` then `float`) and in the
dialog amount step (`strip` then `replace` then `float`); concretely,
"12,5" and "12.5" give identical results end to end. -/
theorem comma_dot_equivalence (s : String) :
    pyFloatOfStr (commaToDot (dotToComma s)) = pyFloatOfStr (commaToDot s) ∧
    pyFloatOfStr (commaToDot (pyStrip (dotToComma s))) =
      pyFloatOfStr (commaToDot (pyStrip s)) ∧
    _parse_add_args (some "12,5 Еда") = _parse_add_args (some "12.5 Еда") ∧
    expense_enter_amount ⟨.expenseAmount, none, none, none⟩ (some "12,5") =
      expense_enter_amount ⟨.expenseAmount, none, none, none⟩ (some "12.5") ∧
    income_enter_amount ⟨.incomeAmount, none, none, none⟩ (some "12,5") =
      income_enter_amount ⟨.incomeAmount, none, none, none⟩ (some "12.5") := by
  refine ⟨by rw [commaToDot_dotToComma], ?_, rfl, rfl, rfl⟩
  rw [pyStrip_dotToComma, commaToDot_dotToComma]

/-- C3 (amended): the validator rejects every candidate whose amount fails
float parsing and every candidate whose parsed amount compares `<= 0`; a
candidate with amount -5 never reaches `AwaitingVoiceConfirmation`.  There
is no fractional-digit check: see the counterexample, where 5.999 is
accepted. -/
theorem validator_amount_guard (d : VoiceData) :
    (pyFloatOfJson d.amount = .error () →
      ∀ d', _validate_voice_json d ≠ .ok d') ∧
    (∀ a, pyFloatOfJson d.amount = .ok a → pyfLeB a (.fin 0) = true →
      ∀ d', _validate_voice_json d ≠ .ok d') ∧
    (∀ (s : Session) (db : Db), s.state ≠ .voiceConfirm →
      (handle_voice_parsed dNeg5 "t" s db).sess = s ∧
      (handle_voice_parsed dNeg5 "t" s db).sess.state ≠ .voiceConfirm) := by
  refine ⟨?_, ?_, ?_⟩
  · intro h d'
    unfold _validate_voice_json
    cases hk : resolveKind d with
    | none => simp
    | some k => simp [h]
  · intro a h hle d'
    unfold _validate_voice_json
    cases hk : resolveKind d with
    | none => simp
    | some k => simp [h, hle]
  · intro s db hstate
    exact ⟨rfl, hstate⟩

/-- C3 witness: the amended guard applied to a concrete non-numeric
amount. -/
theorem validator_amount_guard_witness :
    _validate_voice_json dNullAmount ≠ .ok dNullAmount :=
  (validator_amount_guard dNullAmount).1 rfl dNullAmount

/-- C3 counterexample: an amount with three fractional digits (5.999) is
accepted unchanged by the validator, refuting the claimed rejection of
amounts with more than 2 fractional digits. -/
theorem validator_frac_digits_cex :
    _validate_voice_json dFrac = .ok dFrac ∧ ¬((mkRat 5999 1000).den ∣ 100) := by
  exact ⟨rfl, by decide⟩

/-- C6: `_period_start` resolves, on the UTC wall-clock fields of `now`:
`day` to midnight of the current day, `week` to midnight of the most recent
Monday (the result is always a Monday at 00:00:00), `month` to the first of
the current month at midnight, and `year` to January 1 at midnight. -/
theorem period_start_resolution (now : UtcTime) :
    _period_start .day now = ⟨now.toInstant.ord, 0, 0, 0⟩ ∧
    ordWeekday (_period_start .week now).ord = 0 ∧
    (_period_start .week now).hour = 0 ∧
    (_period_start .week now).minute = 0 ∧
    (_period_start .week now).second = 0 ∧
    (_period_start .week now).ord ≤ now.toInstant.ord ∧
    now.toInstant.ord - (_period_start .week now).ord < 7 ∧
    _period_start .month now = ⟨civilToDays now.year now.month 1, 0, 0, 0⟩ ∧
    _period_start .year now = ⟨civilToDays now.year 1 1, 0, 0, 0⟩ := by
  refine ⟨rfl, ?_, rfl, rfl, rfl, ?_, ?_, rfl, rfl⟩ <;>
    · simp only [_period_start, ordWeekday, pyWeekday, UtcTime.toInstant]
      omega

/-- C9 (amended): every transaction the store layer accepts has
kind ∈ {expense, income} and an amount that does not compare `<= 0`; for a
finite amount that means amount > 0, but the guard is a float comparison, so
NaN (neither `<= 0` nor `> 0`) passes it — see the counterexample. -/
theorem add_transaction_guard (db : Db) (userId : ℕ) (txType : String)
    (amount : PyFloat) (category : String) (description : Option String)
    (now : Instant) (storeFails : Bool) (r : ℕ × Db)
    (h : add_transaction db userId txType amount category description now
      storeFails = .ok r) :
    (txType = "expense" ∨ txType = "income") ∧
    pyfLeB amount (.fin 0) = false ∧
    (∀ q, amount = .fin q → 0 < q) ∧
    r.2.txs = db.txs ++ [⟨userId, txType, amount, category, description, now⟩] ∧
    r.2.users = db.users := by
  unfold add_transaction at h
  split_ifs at h with h1 h2 h3
  injection h with h'
  subst h'
  refine ⟨h1, by simpa using h2, ?_, rfl, rfl⟩
  intro q hq
  subst hq
  simp [pyfLeB] at h2
  exact h2

/-- C9 witness: the guard theorem applied to a concrete accepted insert. -/
theorem add_transaction_guard_witness :
    pyfLeB (.fin 5) (.fin 0) = false ∧ (0 : ℚ) < 5 :=
  ⟨(add_transaction_guard ⟨[], []⟩ 1 "income" (.fin 5) "Зарплата" none
      ⟨0, 0, 0, 0⟩ false (1, ⟨[], [⟨1, "income", .fin 5, "Зарплата", none, ⟨0, 0, 0, 0⟩⟩]⟩)
      rfl).2.1,
   (add_transaction_guard ⟨[], []⟩ 1 "income" (.fin 5) "Зарплата" none
      ⟨0, 0, 0, 0⟩ false (1, ⟨[], [⟨1, "income", .fin 5, "Зарплата", none, ⟨0, 0, 0, 0⟩⟩]⟩)
      rfl).2.2.1 5 rfl⟩

/-- C9 counterexample: a NaN amount passes the `amount <= 0` guard, so the
store layer accepts a record whose amount is not `> 0`. -/
theorem add_transaction_nan_cex :
    add_transaction ⟨[], []⟩ 1 "expense" .nan "Еда" none ⟨0, 0, 0, 0⟩ false =
      .ok (1, ⟨[], [⟨1, "expense", .nan, "Еда", none, ⟨0, 0, 0, 0⟩⟩]⟩) ∧
    pyfLtB (.fin 0) .nan = false := by
  exact ⟨rfl, rfl⟩

/-- C10: pressing the expense-entry or income-entry button clears the whole
session (any pending voice candidate or partial accumulator included) before
entering the amount state, in every prior session state. -/
theorem entry_buttons_clear_session (s : Session) (db : Db) (ctx : Ctx) :
    handleText s db ctx "➖ Расход" =
      ⟨{ Session.empty with state := .expenseAmount }, db, [.askExpenseAmount], false⟩ ∧
    handleText s db ctx "➕ Доход" =
      ⟨{ Session.empty with state := .incomeAmount }, db, [.askIncomeAmount], false⟩ :=
  ⟨rfl, rfl⟩

/-- C1: in `AwaitingVoiceConfirmation`, with a stored candidate of the shape
`handle_voice` always leaves (validated kind and amount), exactly
yes/no/cancel are acted on: "да" ensures the user exists and appends the
stored candidate, returning to Idle; "нет" or "отмена" return to Idle with
no append; every other input re-prompts, leaving session, candidate and
ledger unchanged. -/
theorem voice_confirm_exact_inputs (txt : String) (s : Session) (db : Db)
    (ctx : Ctx) (vt : VoiceTx)
    (_hstate : s.state = .voiceConfirm)
    (hvt : s.voiceTx = some vt)
    (hkind : vt.txType = "expense" ∨ vt.txType = "income")
    (hamt : pyfLeB vt.amount (.fin 0) = false)
    (hsf : ctx.storeFails = false) :
    (pyLower (pyStrip txt) = "да" →
      (voice_confirm s (some txt) db ctx).sess = Session.empty ∧
      (voice_confirm s (some txt) db ctx).db.txs =
        (ensure_user db ctx.tgId ctx.name).2.txs ++
          [⟨(ensure_user db ctx.tgId ctx.name).1, vt.txType, vt.amount,
            vt.category, vt.description, ctx.now⟩] ∧
      hasUser (voice_confirm s (some txt) db ctx).db ctx.tgId = true) ∧
    ((pyLower (pyStrip txt) = "нет" ∨ pyLower (pyStrip txt) = "отмена") →
      (voice_confirm s (some txt) db ctx).sess = Session.empty ∧
      (voice_confirm s (some txt) db ctx).db = db ∧
      (voice_confirm s (some txt) db ctx).raised = false) ∧
    (¬(pyLower (pyStrip txt) = "да" ∨ pyLower (pyStrip txt) = "нет" ∨
        pyLower (pyStrip txt) = "отмена") →
      voice_confirm s (some txt) db ctx = ⟨s, db, [.pleaseYesNo], false⟩) := by
  refine ⟨?_, ?_, ?_⟩
  · intro ha
    have h1 : voice_confirm s (some txt) db ctx =
        (match add_transaction (ensure_user db ctx.tgId ctx.name).2
          (ensure_user db ctx.tgId ctx.name).1 vt.txType vt.amount vt.category
          vt.description ctx.now ctx.storeFails with
        | .error _ => ⟨s, (ensure_user db ctx.tgId ctx.name).2, [], true⟩
        | .ok (_, db2) =>
          ⟨Session.empty, db2, [.added vt.txType vt.amount vt.category], false⟩) := by
      unfold voice_confirm
      simp only [Option.getD, ha, hvt]
      norm_num
      rw [if_neg (by decide), if_neg (by decide)]
    rw [hsf] at h1
    unfold add_transaction at h1
    rw [if_neg (not_not_intro hkind), hamt] at h1
    simp only [if_false, Bool.false_eq_true, reduceIte] at h1
    rw [h1]
    exact ⟨rfl, rfl, by simpa using hasUser_ensure_user db ctx.tgId ctx.name⟩
  · intro ha
    unfold voice_confirm
    rcases ha with ha | ha <;> simp [Option.getD, ha]
  · intro ha
    push_neg at ha
    obtain ⟨h1, h2, h3⟩ := ha
    unfold voice_confirm
    simp [Option.getD, h1, h2, h3]

/-- C1 witness: confirming "Да" with a concrete stored candidate appends it
and clears the session. -/
theorem voice_confirm_exact_inputs_witness :
    (voice_confirm sConfirm (some "Да") db0 ctxOk).sess = Session.empty ∧
    (voice_confirm sConfirm (some "Да") db0 ctxOk).db.txs =
      (ensure_user db0 ctxOk.tgId ctxOk.name).2.txs ++
        [⟨(ensure_user db0 ctxOk.tgId ctxOk.name).1, vtSample.txType,
          vtSample.amount, vtSample.category, vtSample.description, ctxOk.now⟩] :=
  ⟨((voice_confirm_exact_inputs "Да" sConfirm db0 ctxOk vtSample rfl rfl
      (Or.inl rfl) rfl rfl).1 rfl).1,
   ((voice_confirm_exact_inputs "Да" sConfirm db0 ctxOk vtSample rfl rfl
      (Or.inl rfl) rfl rfl).1 rfl).2.1⟩

/-- C4: a machine-suggested candidate whose category is not in the catalog
of its resolved kind (and whose kind and amount pass the other checks) is
never rejected for its category: the validator substitutes the reserved
fallback label "Прочее", the stored candidate carries that label, and the
confirmation prompt displays it. -/
theorem validator_category_fallback (d : VoiceData) (k : String) (a : PyFloat)
    (orig : String) (s : Session) (db : Db)
    (hk : resolveKind d = some k)
    (ha : pyFloatOfJson d.amount = .ok a)
    (hpos : pyfLeB a (.fin 0) = false)
    (hcat : (catsFor k).contains (pyStrip (pyStrOr d.category)) = false) :
    _validate_voice_json d =
      .ok { d with
            type := JsonValue.str k
            category := JsonValue.str "Прочее"
            description := coerceDesc d.description } ∧
    (handle_voice_parsed d orig s db).sess.state = .voiceConfirm ∧
    (∃ vt, (handle_voice_parsed d orig s db).sess.voiceTx = some vt ∧
      vt.category = "Прочее") ∧
    (∃ shown, (handle_voice_parsed d orig s db).replies =
      [.confirmPrompt k a "Прочее" shown]) := by
  have hval : _validate_voice_json d = .ok { d with
      type := JsonValue.str k
      category := JsonValue.str "Прочее"
      description := coerceDesc d.description } := by
    unfold _validate_voice_json
    rw [hk]
    simp only [ha, hpos, hcat]
    simp
  refine ⟨hval, ?_, ?_, ?_⟩
  · unfold handle_voice_parsed
    rw [hval]
  · unfold handle_voice_parsed
    rw [hval]
    exact ⟨_, rfl, rfl⟩
  · unfold handle_voice_parsed
    rw [hval]
    simp only [ha]
    exact ⟨_, rfl⟩

/-- C4 witness: an income candidate with the expense-only category "Еда" is
stored and shown with "Прочее". -/
theorem validator_category_fallback_witness :
    _validate_voice_json dIncomeBadCat =
      .ok ⟨.str "income", .num 7, .str "Прочее", .null⟩ ∧
    (handle_voice_parsed dIncomeBadCat "зп" Session.empty db0).sess.state =
      .voiceConfirm :=
  ⟨(validator_category_fallback dIncomeBadCat "income" (.fin 7) "зп"
      Session.empty db0 rfl rfl rfl rfl).1,
   (validator_category_fallback dIncomeBadCat "income" (.fin 7) "зп"
      Session.empty db0 rfl rfl rfl rfl).2.1⟩

/-- C2 counterexample: in `AwaitingCustomCategory` the cancel keyword
"Отмена" is accepted as the category name instead of cancelling, and in
`AwaitingDescription` it is accepted as the description and a transaction is
persisted. -/
theorem cancel_keyword_cex :
    (handleText sCustom db0 ctxOk "Отмена").sess.state = .expenseNeedDescription ∧
    (handleText sCustom db0 ctxOk "Отмена").sess.category = some "Отмена" ∧
    (handleText sDesc db0 ctxOk "Отмена").db.txs ≠ [] := by
  refine ⟨rfl, rfl, ?_⟩
  exact of_decide_eq_true rfl

/-- C2 (amended): the cancel keyword "Отмена" returns the session to Idle
with nothing persisted from `AwaitingAmount`, `AwaitingCategory` and
`AwaitingDescriptionChoice` of both kinds and from
`AwaitingVoiceConfirmation`; but in `AwaitingCustomCategory` it becomes the
category name, and in `AwaitingDescription` it becomes the description and
the accumulated transaction is persisted. -/
theorem cancel_keyword_amended (am : Option PyFloat) (cat : Option String)
    (vtx : Option VoiceTx) (db : Db) (ctx : Ctx) :
    handleText ⟨.expenseAmount, am, cat, vtx⟩ db ctx "Отмена" =
      ⟨Session.empty, db, [.cancelledMsg], false⟩ ∧
    handleText ⟨.expenseCategory, am, cat, vtx⟩ db ctx "Отмена" =
      ⟨Session.empty, db, [.cancelledMsg], false⟩ ∧
    handleText ⟨.expenseNeedDescription, am, cat, vtx⟩ db ctx "Отмена" =
      ⟨Session.empty, db, [.cancelledMsg], false⟩ ∧
    handleText ⟨.incomeAmount, am, cat, vtx⟩ db ctx "Отмена" =
      ⟨Session.empty, db, [.cancelledMsg], false⟩ ∧
    handleText ⟨.incomeCategory, am, cat, vtx⟩ db ctx "Отмена" =
      ⟨Session.empty, db, [.cancelledMsg], false⟩ ∧
    handleText ⟨.incomeNeedDescription, am, cat, vtx⟩ db ctx "Отмена" =
      ⟨Session.empty, db, [.cancelledMsg], false⟩ ∧
    handleText ⟨.voiceConfirm, am, cat, vtx⟩ db ctx "Отмена" =
      ⟨Session.empty, db, [.cancelledMsg], false⟩ ∧
    handleText ⟨.expenseCustomCategory, am, cat, vtx⟩ db ctx "Отмена" =
      ⟨⟨.expenseNeedDescription, am, some "Отмена", vtx⟩, db, [.askDescChoice], false⟩ ∧
    handleText ⟨.incomeCustomCategory, am, cat, vtx⟩ db ctx "Отмена" =
      ⟨⟨.incomeNeedDescription, am, some "Отмена", vtx⟩, db, [.askDescChoice], false⟩ ∧
    (∀ (amv : PyFloat) (c : String), ctx.storeFails = false →
      pyfLeB amv (.fin 0) = false →
      handleText ⟨.expenseDescription, some amv, some c, vtx⟩ db ctx "Отмена" =
        ⟨Session.empty,
         { (ensure_user db ctx.tgId ctx.name).2 with
           txs := (ensure_user db ctx.tgId ctx.name).2.txs ++
             [⟨(ensure_user db ctx.tgId ctx.name).1, "expense", amv, c,
               some "Отмена", ctx.now⟩] },
         [.added "expense" amv c], false⟩) := by
  refine ⟨rfl, rfl, rfl, rfl, rfl, rfl, rfl, rfl, rfl, ?_⟩
  intro amv c hsf hle
  have h0 : handleText ⟨.expenseDescription, some amv, some c, vtx⟩ db ctx "Отмена" =
      expense_description ⟨.expenseDescription, some amv, some c, vtx⟩
        (some "Отмена") db ctx := rfl
  rw [h0]
  unfold expense_description _finalize_expense add_transaction
  rw [hsf]
  simp [hle]
  exact ⟨of_decide_eq_true rfl, rfl⟩

/-- C2 witness: the amended cancel behaviour at concrete inputs. -/
theorem cancel_keyword_amended_witness :
    handleText ⟨.expenseAmount, some (.fin 5), none, none⟩ db0 ctxOk "Отмена" =
      ⟨Session.empty, db0, [.cancelledMsg], false⟩ ∧
    handleText ⟨.expenseCustomCategory, some (.fin 5), none, none⟩ db0 ctxOk "Отмена" =
      ⟨⟨.expenseNeedDescription, some (.fin 5), some "Отмена", none⟩, db0,
        [.askDescChoice], false⟩ :=
  ⟨(cancel_keyword_amended (some (.fin 5)) none none db0 ctxOk).1,
   (cancel_keyword_amended (some (.fin 5)) none none db0 ctxOk).2.2.2.2.2.2.2.1⟩

lemma ensure_user_txs (db : Db) (t : ℤ) (n : String) :
    (ensure_user db t n).2.txs = db.txs := by
  unfold ensure_user
  split <;> rfl

lemma add_transaction_true_ne_ok (db : Db) (userId : ℕ) (txType : String)
    (amount : PyFloat) (category : String) (description : Option String)
    (now : Instant) (r : ℕ × Db) :
    add_transaction db userId txType amount category description now true ≠ .ok r := by
  unfold add_transaction
  split_ifs <;> simp_all

/-- C7 counterexample: in `expense_need_description`, answering "Нет" with a
failing store still clears the session first, so after the StoreError the
session is Idle, not the state the event arrived in. -/
theorem store_error_cex :
    (expense_need_description sNeedDesc (some "Нет") db0 ctxFail).sess = Session.empty ∧
    (expense_need_description sNeedDesc (some "Нет") db0 ctxFail).raised = true ∧
    sNeedDesc ≠ Session.empty := by
  exact ⟨rfl, rfl, of_decide_eq_true rfl⟩

/-- C7 (amended): on a StoreError, `voice_confirm` does leave the session
unchanged (the store call precedes `state.clear()`), but the dialog
finalisation handlers (`expense_need_description` on "нет" and
`expense_description`) clear the session before the store call, so the
StoreError leaves the session Idle and the prior dialog steps are lost.  In
all cases no transaction is persisted. -/
theorem store_error_amended (s : Session) (txt : String) (db : Db) (ctx : Ctx)
    (hsf : ctx.storeFails = true) :
    (pyLower (pyStrip txt) = "да" →
      (voice_confirm s (some txt) db ctx).sess = s ∧
      (voice_confirm s (some txt) db ctx).db.txs = db.txs ∧
      (voice_confirm s (some txt) db ctx).raised = true) ∧
    (pyLower (pyStrip txt) = "нет" →
      (expense_need_description s (some txt) db ctx).sess = Session.empty ∧
      (expense_need_description s (some txt) db ctx).db.txs = db.txs ∧
      (expense_need_description s (some txt) db ctx).raised = true) ∧
    ((expense_description s (some txt) db ctx).sess = Session.empty ∧
     (expense_description s (some txt) db ctx).db.txs = db.txs ∧
     (expense_description s (some txt) db ctx).raised = true) := by
  refine ⟨?_, ?_, ?_⟩
  · intro ha
    unfold voice_confirm
    dsimp only [Option.getD]
    rw [ha]
    rw [if_neg (by decide : ¬("да" : String) = "отмена")]
    rw [if_neg (by decide : ¬¬(("да" : String) = "да" ∨ ("да" : String) = "нет"))]
    rw [if_neg (by decide : ¬("да" : String) = "нет")]
    rw [hsf]
    refine ⟨?_, ?_, ?_⟩ <;>
      first
        | rfl
        | (split <;>
            first
              | rfl
              | exact ensure_user_txs db ctx.tgId ctx.name
              | exact absurd (by assumption)
                  (add_transaction_true_ne_ok _ _ _ _ _ _ _ _))
  · intro ha
    unfold expense_need_description _finalize_expense
    dsimp only [Option.getD]
    rw [ha]
    rw [if_neg (by decide : ¬("нет" : String) = "отмена")]
    rw [if_neg (by decide : ¬("нет" : String) = "да")]
    rw [if_pos (rfl : ("нет" : String) = "нет")]
    rw [hsf]
    refine ⟨?_, ?_, ?_⟩ <;>
      first
        | rfl
        | (split <;>
            first
              | rfl
              | exact ensure_user_txs db ctx.tgId ctx.name
              | exact absurd (by assumption)
                  (add_transaction_true_ne_ok _ _ _ _ _ _ _ _))
  · unfold expense_description _finalize_expense
    dsimp only [Option.getD]
    rw [hsf]
    refine ⟨?_, ?_, ?_⟩ <;>
      first
        | rfl
        | (split <;>
            first
              | rfl
              | exact ensure_user_txs db ctx.tgId ctx.name
              | exact absurd (by assumption)
                  (add_transaction_true_ne_ok _ _ _ _ _ _ _ _))

/-- C7 witness: the amended StoreError behaviour at a concrete dialog
state. -/
theorem store_error_amended_witness :
    (expense_need_description sNeedDesc (some "нет") db0 ctxFail).sess = Session.empty ∧
    (expense_need_description sNeedDesc (some "нет") db0 ctxFail).raised = true :=
  ⟨((store_error_amended sNeedDesc "нет" db0 ctxFail rfl).2.1 rfl).1,
   ((store_error_amended sNeedDesc "нет" db0 ctxFail rfl).2.1 rfl).2.2⟩

lemma length_filter_filter_le {α : Type} (l : List α) (p q : α → Bool)
    (h : ∀ x, p x = true → q x = true → False) :
    (l.filter p).length + (l.filter q).length ≤ l.length := by
  induction l with
  | nil => simp
  | cons x xs ih =>
    cases hpx : p x <;> cases hqx : q x
    · simp [List.filter_cons, hpx, hqx]
      omega
    · simp [List.filter_cons, hpx, hqx]
      omega
    · simp [List.filter_cons, hpx, hqx]
      omega
    · exact (h x hpx hqx).elim

lemma filter_and_eq_nil {α : Type} (l : List α) (p q : α → Bool)
    (h : l.filter p = []) :
    l.filter (fun x => p x && q x) = [] := by
  induction l with
  | nil => rfl
  | cons x xs ih =>
    rw [List.filter_cons] at h ⊢
    cases hpx : p x with
    | true =>
      rw [hpx] at h
      simp at h
    | false =>
      rw [hpx] at h
      rw [if_neg (by decide : ¬(false = true))] at h
      rw [Bool.false_and, if_neg (by decide : ¬(false = true))]
      exact ih h

lemma rowLeB_total_le {x y : StatsRow} (hxy : enumIdx x.txType = enumIdx y.txType)
    (h : rowLeB x y = true) : pyfLeB y.total x.total = true := by
  unfold rowLeB at h
  rw [hxy] at h
  simpa using h

/-- C5 (amended): every possible result of `get_stats` carries the income
and expense totals since `periodStart` rounded to 2 decimals; the
by-category lists together hold at most 50 rows (the SQL `LIMIT 50` — not
10 per kind), each list ordered by total descending with tie order left
unspecified by the query; zero matching transactions give zero totals and
empty lists. -/
theorem get_stats_amended (txs : List Txn) (userId : ℕ) (p : Period)
    (now : UtcTime) (res : StatsResult) (h : IsGetStats txs userId p now res) :
    res.incomeTotal = pyRound2 (kindTotal txs userId (_period_start p now) "income") ∧
    res.expenseTotal = pyRound2 (kindTotal txs userId (_period_start p now) "expense") ∧
    res.byExpense.length + res.byIncome.length ≤ 50 ∧
    res.byExpense.Pairwise (fun a b => pyfLeB b.2 a.2 = true) ∧
    res.byIncome.Pairwise (fun a b => pyfLeB b.2 a.2 = true) ∧
    (txs.filter (txMatches userId (_period_start p now)) = [] →
      res.incomeTotal = .fin 0 ∧ res.expenseTotal = .fin 0 ∧
      res.byIncome = [] ∧ res.byExpense = []) := by
  obtain ⟨hInc, hExp, rows, ⟨perm, hperm, hpw, htake⟩, hByInc, hByExp⟩ := h
  have hpw_rows : rows.Pairwise (fun a b => rowLeB a b = true) := by
    rw [htake]
    exact hpw.sublist (List.take_sublist 50 perm)
  refine ⟨hInc, hExp, ?_, ?_, ?_, ?_⟩
  · have hrows_le : rows.length ≤ 50 := by
      rw [htake]
      exact List.length_take_le 50 perm
    rw [hByExp, hByInc]
    simp only [List.length_map]
    have hd := length_filter_filter_le rows
      (fun r => decide (r.txType = "expense")) (fun r => decide (r.txType = "income"))
      (by
        intro x h1 h2
        have h1' := of_decide_eq_true h1
        have h2' := of_decide_eq_true h2
        rw [h1'] at h2'
        exact absurd h2' (by decide))
    omega
  · rw [hByExp, List.pairwise_map]
    refine List.Pairwise.imp_of_mem ?_
      (hpw_rows.sublist (List.filter_sublist rows))
    intro a b hma hmb hab
    simp only [List.mem_filter, decide_eq_true_eq] at hma hmb
    exact rowLeB_total_le (by rw [hma.2, hmb.2]) hab
  · rw [hByInc, List.pairwise_map]
    refine List.Pairwise.imp_of_mem ?_
      (hpw_rows.sublist (List.filter_sublist rows))
    intro a b hma hmb hab
    simp only [List.mem_filter, decide_eq_true_eq] at hma hmb
    exact rowLeB_total_le (by rw [hma.2, hmb.2]) hab
  · intro hF
    have hgroups : statsGroups txs userId (_period_start p now) = [] := by
      unfold statsGroups
      rw [hF]
      rfl
    have hperm_nil : perm = [] := by
      rw [hgroups] at hperm
      exact hperm.eq_nil
    have hrows_nil : rows = [] := by
      rw [htake, hperm_nil]
      rfl
    refine ⟨?_, ?_, ?_, ?_⟩
    · rw [hInc]
      unfold kindTotal
      rw [filter_and_eq_nil _ _ _ hF]
      rfl
    · rw [hExp]
      unfold kindTotal
      rw [filter_and_eq_nil _ _ _ hF]
      rfl
    · rw [hByInc, hrows_nil]
      rfl
    · rw [hByExp, hrows_nil]
      rfl

/-- C5 counterexample: with 11 expense categories in the period every
possible result lists all 11 (`LIMIT 50` is not 10-per-kind), and with two
equal-total categories "a" and "b" the query may return them in
name-descending order, so the name-ascending tie-break does not hold. -/
theorem get_stats_cex :
    (¬ ∀ res : StatsResult, IsGetStats txs11 1 .year now0 res →
        res.byExpense.length ≤ 10) ∧
    (∃ res : StatsResult, IsGetStats txs2 1 .year now0 res ∧
      res.byExpense = [("b", .fin 5), ("a", .fin 5)]) := by
  constructor
  · intro hall
    have h := hall res11 ⟨by decide, by decide, rows11,
      ⟨rows11, by decide, by decide, by decide⟩, by decide, by decide⟩
    exact absurd h (by decide)
  · exact ⟨resBA, ⟨by decide, by decide, rowsBA,
      ⟨rowsBA, by decide, by decide, by decide⟩, by decide, by decide⟩, rfl⟩

/-- C5 witness: the amended statement applied to the empty ledger. -/
theorem get_stats_amended_witness :
    resEmpty.byExpense.length + resEmpty.byIncome.length ≤ 50 ∧
    resEmpty.byExpense = [] :=
  ⟨(get_stats_amended [] 1 .day now0 resEmpty
      ⟨by decide, by decide, ([] : List StatsRow),
        ⟨([] : List StatsRow), by decide, by decide, by decide⟩,
        by decide, by decide⟩).2.2.1,
   ((get_stats_amended [] 1 .day now0 resEmpty
      ⟨by decide, by decide, ([] : List StatsRow),
        ⟨([] : List StatsRow), by decide, by decide, by decide⟩,
        by decide, by decide⟩).2.2.2.2.2 rfl).2.2.2⟩

end FinanceBot
